import Mathlib

/-
Verification of the session/telemetry synchronization layer of the
MCconnectRust front end (src/ui).  Each TypeScript function that the
properties below concern is embedded as an executable Lean definition:
asynchronous backend responses become explicit `Except`/`Option`
arguments, React component state becomes a structure threaded through
state-transition functions, and the module-level log store becomes an
explicit `LogStore` value.
-/

namespace MCConnect

/- ## Connection Reconciler (src/ui/src/App.tsx) -/

/-- The local intent recorded by a workflow: `type` field of
`ConnectionState` in App.tsx (`"host" | "client" | null`). -/
inductive Role where
  | host
  | client
deriving DecidableEq, Repr

/-- `ConnectionState` from App.tsx: `{ type, lobbyId, port }`, each field
nullable. -/
structure ConnectionState where
  type : Option Role
  lobbyId : Option String
  port : Option Int
deriving DecidableEq, Repr

/-- The initial `useState` value in App.tsx: all three fields `null`. -/
def emptyConnectionState : ConnectionState :=
  { type := none, lobbyId := none, port := none }

/-- `checkActiveConnection` from App.tsx, as a function of the previous
state and the backend response to `invoke("get_lobby_id")`.  The response
is `Except` (the promise may reject, landing in the `catch` block which
only logs) of `Option Int` (`number | null`).  The source tests the
response with JS truthiness `if (lobbyId)`, which is false for both
`null` and the number `0`; the truthy branch spreads the previous state
and overwrites only `lobbyId` with `lobbyId.toString()`, the falsy branch
resets every field to `null`. -/
def checkActiveConnection (prev : ConnectionState)
    (resp : Except String (Option Int)) : ConnectionState :=
  match resp with
  | Except.error _ => prev
  | Except.ok none => { type := none, lobbyId := none, port := none }
  | Except.ok (some n) =>
      if n = 0 then { type := none, lobbyId := none, port := none }
      else { prev with lobbyId := some (toString n) }

/-- The `onConnectionChange` callbacks App.tsx hands to the Host and
Client views: they overwrite all three fields unconditionally
(`{ type: "host", lobbyId, port }`, resp. `{ type: "client", lobbyId,
port: null }`). -/
def adopt (role : Role) (lobbyId : String) (port : Option Int) : ConnectionState :=
  { type := some role, lobbyId := some lobbyId, port := port }

/- ## The reconcile polling loop (App.tsx, `setInterval` effect) -/

/-- State of the reconcile polling loop: the reconciler's
`ConnectionState` plus the number of `get_lobby_id` requests currently
in flight (pending promises started by `checkActiveConnection`). -/
structure PollLoop where
  inFlight : Nat
  conn : ConnectionState
deriving DecidableEq, Repr

/-- One firing of the 2000 ms timer in App.tsx:
`setInterval(() => { checkActiveConnection(); }, 2000)`.  The callback
invokes the async `checkActiveConnection` unconditionally — App.tsx
holds no in-flight flag — so every tick starts one more backend poll
regardless of how many are still pending. -/
def timerTick (s : PollLoop) : PollLoop :=
  { s with inFlight := s.inFlight + 1 }

/-- Resolution of one in-flight `get_lobby_id` request: the pending count
drops and the response is merged by `checkActiveConnection`. -/
def pollReturn (s : PollLoop) (resp : Except String (Option Int)) : PollLoop :=
  { inFlight := s.inFlight - 1, conn := checkActiveConnection s.conn resp }

/- ## Log Aggregator (src/ui/src/components/LogPanel.tsx, module level) -/

/-- `LogEntry` from LogPanel.tsx: `{ id, timestamp, level, message }`. -/
structure LogEntry where
  id : Nat
  timestamp : String
  level : String
  message : String
deriving DecidableEq, Repr

/-- The module-level mutable state of LogPanel.tsx: `globalLogs` and
`logIdCounter`. -/
structure LogStore where
  globalLogs : List LogEntry
  logIdCounter : Nat
deriving DecidableEq, Repr

/-- Module load: `globalLogs = []`, `logIdCounter = 0`. -/
def initLogStore : LogStore :=
  { globalLogs := [], logIdCounter := 0 }

/-- JS `Array.prototype.slice(-n)` on a list: the last `n` elements
(the whole list when it is shorter than `n`). -/
def sliceLast (n : Nat) (l : List LogEntry) : List LogEntry :=
  l.drop (l.length - n)

/-- The `listen` callback in `initLogListener` (LogPanel.tsx): builds a
new entry with `id: logIdCounter++`, the capture-time timestamp,
`level: event.payload.level || "INFO"` (JS `||` replaces the empty
string), the payload message, and then sets
`globalLogs = [...globalLogs.slice(-500), newLog]` — the last 500 of the
old buffer followed by the new entry. -/
def appendLog (s : LogStore) (timestamp level message : String) : LogStore :=
  let newLog : LogEntry :=
    { id := s.logIdCounter
      timestamp := timestamp
      level := if level = "" then "INFO" else level
      message := message }
  { globalLogs := sliceLast 500 s.globalLogs ++ [newLog]
    logIdCounter := s.logIdCounter + 1 }

/-- `clearLogs` (LogPanel.tsx): `globalLogs = []`; `logIdCounter` is not
touched. -/
def clearLogs (s : LogStore) : LogStore :=
  { s with globalLogs := [] }

/-- The operations that mutate the module-level log store. -/
inductive LogOp where
  | append (timestamp level message : String)
  | clear
deriving DecidableEq, Repr

/-- Apply one log-store operation. -/
def applyLogOp (s : LogStore) : LogOp → LogStore
  | LogOp.append t l m => appendLog s t l m
  | LogOp.clear => clearLogs s

/-- Run a sequence of log-store operations from a starting store. -/
def runLogOps (s : LogStore) (ops : List LogOp) : LogStore :=
  ops.foldl applyLogOp s

/-- The `id` values handed out to the appends of an operation sequence,
in insertion order (each append reads `logIdCounter` and post-increments
it; `clear` leaves the counter alone). -/
def issuedIds : LogStore → List LogOp → List Nat
  | _, [] => []
  | s, LogOp.append t l m :: ops =>
      s.logIdCounter :: issuedIds (appendLog s t l m) ops
  | s, LogOp.clear :: ops => issuedIds (clearLogs s) ops

/- ## LogPanel component view (filter and export) -/

/-- The LogPanel component state that the filter and export logic read:
`logs` (the 500 ms snapshot of `globalLogs`), the selected `filter`,
plus the purely visual `autoScroll` and `isMinimized` flags. -/
structure PanelState where
  logs : List LogEntry
  filter : String
  autoScroll : Bool
  isMinimized : Bool
deriving Repr

/-- One rendered export record, from `downloadLogs`:
backtick-template `[${log.timestamp}] [${log.level}] ${log.message}`. -/
def formatLogLine (log : LogEntry) : String :=
  "[" ++ log.timestamp ++ "] [" ++ log.level ++ "] " ++ log.message

/-- The text assembled by `downloadLogs` (LogPanel.tsx): it maps
`formatLogLine` over `logs` — the full snapshot, not `filteredLogs` —
and joins with newlines.  It reads state only; nothing is written back
to `globalLogs` or to component state. -/
def downloadText (st : PanelState) : String :=
  String.intercalate "\n" (st.logs.map formatLogLine)

/-- JS `String.prototype.toUpperCase()` on the ASCII strings used as log
levels and filter values: upper-cases each character. -/
def toUpperCase (s : String) : String :=
  String.mk (s.data.map Char.toUpper)

/-- `filteredLogs` (LogPanel.tsx): all logs when the filter is `"all"`,
otherwise the entries whose upper-cased level equals the upper-cased
filter. -/
def filteredView (st : PanelState) : List LogEntry :=
  if st.filter = "all" then st.logs
  else st.logs.filter (fun log => toUpperCase log.level == toUpperCase st.filter)

/- ## Host workflow detection loop (src/ui/src/views/Host.tsx) -/

/-- `status` state of the Host view (`'idle' | 'running' | 'error'`). -/
inductive HostStatus where
  | idle
  | running
  | error
deriving DecidableEq, Repr

/-- `MinecraftServerInfo` from Host.tsx: `{ port, motd }`. -/
structure ServerInfo where
  port : Int
  motd : String
deriving DecidableEq, Repr

/-- The Host view state touched by the detection effect: the port input,
workflow status, status message, the `detecting` flag, the detected
server, the attempt counter, and whether `detectionIntervalRef.current`
holds a live interval. -/
structure HostState where
  port : String
  status : HostStatus
  message : String
  detecting : Bool
  detectedServer : Option ServerInfo
  detectionAttempts : Nat
  intervalActive : Bool
deriving DecidableEq, Repr

/-- `performDetection` from Host.tsx, with the resolved backend response
to `invoke("detect_minecraft_server")` passed explicitly.  It sets
`detecting`, increments the attempt counter and updates the message;
on a successful probe (`server` non-null) it auto-fills the port, stores
the server, clears `detecting`, sets the success message **and clears
the detection interval** (`clearInterval`); on a null probe it leaves
everything else alone (polling continues); on a rejected promise it only
updates the message. -/
def performDetection (s : HostState)
    (resp : Except String (Option ServerInfo)) : HostState :=
  let s1 : HostState :=
    { s with
      detecting := true
      detectionAttempts := s.detectionAttempts + 1
      message := "正在搜索本地 Minecraft 服务器... (尝试 "
        ++ toString (s.detectionAttempts + 1) ++ ")" }
  match resp with
  | Except.ok (some server) =>
      { s1 with
        port := toString server.port
        detectedServer := some server
        detecting := false
        message := "✓ 已自动检测到服务器: " ++ server.motd
        intervalActive := false }
  | Except.ok none => s1
  | Except.error _ => { s1 with message := "检测失败，继续尝试..." }

/-- One run of the detection `useEffect` (deps `[detectedServer,
status]`): React first runs the previous cleanup, which clears any live
interval; the body then returns immediately when a server was already
detected or the workflow is running, issuing no probe and creating no
interval.  Otherwise it calls `performDetection` at once and installs
the 3000 ms interval; the interval is registered synchronously before
the awaited probe resolves, so the resolution (which on success clears
the interval) is applied last. -/
def effectRun (s : HostState)
    (resp : Except String (Option ServerInfo)) : HostState :=
  let s1 : HostState := { s with intervalActive := false }
  if s1.detectedServer.isSome = true ∨ s1.status = HostStatus.running then s1
  else performDetection { s1 with intervalActive := true } resp

/-- One firing of the 3000 ms detection timer: it runs `performDetection`
only while the interval is live; a cleared interval never fires. -/
def timerFire (s : HostState)
    (resp : Except String (Option ServerInfo)) : HostState :=
  if s.intervalActive = true then performDetection s resp else s

/- ## Metrics presentation (PerformancePanel, src/unnamed/part_001) -/

/-- Two-digit zero padding of the fractional part, as produced by JS
`toFixed(2)`. -/
def pad2 (n : Nat) : String :=
  if n < 10 then "0" ++ toString n else toString n

/-- `(num / den).toFixed(2)` for a non-negative exact quotient: rounds
`100 * num / den` to the nearest integer, ties toward the larger value
(the ECMAScript `toFixed` rule), and prints it with two decimals.  For
the byte counts below, `num / den` is a dyadic rational exactly
representable as a double, so this model agrees with the JS evaluation. -/
def toFixed2 (num den : Nat) : String :=
  let scaled := (200 * num + den) / (2 * den)
  toString (scaled / 100) ++ "." ++ pad2 (scaled % 100)

/-- `formatBytes` from PerformancePanel: `${bytes} B` below 1024,
`${(bytes / 1024).toFixed(2)} KB` below 1024², otherwise
`${(bytes / 1024 / 1024).toFixed(2)} MB`. -/
def formatBytes (bytes : Nat) : String :=
  if bytes < 1024 then toString bytes ++ " B"
  else if bytes < 1024 * 1024 then toFixed2 bytes 1024 ++ " KB"
  else toFixed2 bytes (1024 * 1024) ++ " MB"

/-- The byte formatter as the specification describes it, with its
three explicit intervals: `b < 1024`, `1024 ≤ b < 1024²`, `b ≥ 1024²`. -/
def formatBytesSpec (b : Nat) : String :=
  if b < 1024 then toString b ++ " B"
  else if 1024 ≤ b ∧ b < 1024 * 1024 then toFixed2 b 1024 ++ " KB"
  else toFixed2 b (1024 * 1024) ++ " MB"

/- ## Helper lemmas -/

@[simp]
lemma appendLog_logIdCounter (s : LogStore) (t l m : String) :
    (appendLog s t l m).logIdCounter = s.logIdCounter + 1 := rfl

@[simp]
lemma clearLogs_logIdCounter (s : LogStore) :
    (clearLogs s).logIdCounter = s.logIdCounter := rfl

/-- One append keeps `min 500` old entries and adds one. -/
lemma appendLog_length (s : LogStore) (t l m : String) :
    (appendLog s t l m).globalLogs.length = min s.globalLogs.length 500 + 1 := by
  simp only [appendLog, sliceLast, List.length_append, List.length_drop,
    List.length_cons, List.length_nil]
  omega

/-- Every id issued from store `s` is at least the current counter. -/
lemma issuedIds_lower_bound (ops : List LogOp) :
    ∀ (s : LogStore), ∀ x ∈ issuedIds s ops, s.logIdCounter ≤ x := by
  induction ops with
  | nil => intro s x hx; simp [issuedIds] at hx
  | cons op ops ih =>
    intro s x hx
    cases op with
    | append t l m =>
        simp only [issuedIds, List.mem_cons] at hx
        rcases hx with rfl | hx
        · exact Nat.le_refl _
        · have h2 := ih (appendLog s t l m) x hx
          simp only [appendLog_logIdCounter] at h2
          omega
    | clear =>
        simp only [issuedIds] at hx
        exact ih (clearLogs s) x hx

/-- The ids issued over any operation sequence are pairwise strictly
increasing in insertion order. -/
lemma issuedIds_pairwise (ops : List LogOp) :
    ∀ s : LogStore, (issuedIds s ops).Pairwise (· < ·) := by
  induction ops with
  | nil => intro s; simp [issuedIds]
  | cons op ops ih =>
    intro s
    cases op with
    | append t l m =>
        simp only [issuedIds]
        refine List.Pairwise.cons ?_ (ih (appendLog s t l m))
        intro x hx
        have h2 := issuedIds_lower_bound ops (appendLog s t l m) x hx
        simp only [appendLog_logIdCounter] at h2
        omega
    | clear =>
        simpa only [issuedIds] using ih (clearLogs s)

/-- Running an operation sequence extended by one final operation. -/
lemma runLogOps_append_op (s : LogStore) (ops : List LogOp) (op : LogOp) :
    runLogOps s (ops ++ [op]) = applyLogOp (runLogOps s ops) op := by
  simp [runLogOps, List.foldl_append]

/-- Buffer length after `k` appends from the fresh store: the code's
eviction keeps 500 old entries before adding the new one, so the length
saturates at 501, not 500. -/
lemma runLogOps_replicate_length (t l m : String) :
    ∀ k : Nat,
      (runLogOps initLogStore (List.replicate k (LogOp.append t l m))).globalLogs.length
        = min k 501 := by
  intro k
  induction k with
  | zero => simp [runLogOps, initLogStore]
  | succ k ih =>
      rw [List.replicate_succ', runLogOps_append_op]
      simp only [applyLogOp, appendLog_length, ih]
      omega

/- ## Claim theorems -/

/-- C1: when `reconcile()` (checkActiveConnection) observes an active
lobby identifier (a truthy `get_lobby_id` response), it updates only the
`lobbyId` field; `type` (role) and `port` are left exactly as they were,
for every prior `ConnectionState` — in particular after
`adopt Host "12345" 25565`, a later poll reporting 12345 leaves the role
`host` and the port 25565 unchanged. -/
theorem reconcile_merge_preserves_role_and_port
    (prev : ConnectionState) (n : Int) (h : n ≠ 0) :
    (checkActiveConnection prev (Except.ok (some n))).type = prev.type
    ∧ (checkActiveConnection prev (Except.ok (some n))).port = prev.port
    ∧ (checkActiveConnection prev (Except.ok (some n))).lobbyId
        = some (toString n) := by
  simp [checkActiveConnection, h]

/-- Witness for C1 at the Host-workflow scenario:
`adopt Host "12345" 25565` followed by a poll reporting lobby id 12345. -/
theorem reconcile_merge_preserves_role_and_port_witness :
    ((12345 : Int) ≠ 0)
    ∧ ((checkActiveConnection (adopt Role.host "12345" (some 25565))
          (Except.ok (some 12345))).type
            = (adopt Role.host "12345" (some 25565)).type
       ∧ (checkActiveConnection (adopt Role.host "12345" (some 25565))
          (Except.ok (some 12345))).port
            = (adopt Role.host "12345" (some 25565)).port
       ∧ (checkActiveConnection (adopt Role.host "12345" (some 25565))
          (Except.ok (some 12345))).lobbyId = some (toString (12345 : Int))) :=
  ⟨by decide,
   reconcile_merge_preserves_role_and_port
     (adopt Role.host "12345" (some 25565)) 12345 (by decide)⟩

/-- C2: when `reconcile()` observes no active lobby (`get_lobby_id`
resolves to `null`), all three `ConnectionState` fields become empty in
that same step, regardless of their prior values. -/
theorem reconcile_absent_clears_state (prev : ConnectionState) :
    checkActiveConnection prev (Except.ok none) = emptyConnectionState := rfl

/-- C3 (failing-input evaluation): after 501 sequential log events the
buffer holds 501 entries, not the 500 the specification states — the
eviction `[...globalLogs.slice(-500), newLog]` keeps 500 old entries and
then appends, so the bound is off by one. -/
theorem logBuffer_501_events_keeps_501 :
    (runLogOps initLogStore
        (List.replicate 501 (LogOp.append "12:00:00" "INFO" "hello"))).globalLogs.length
      = 501 := by
  have h := runLogOps_replicate_length "12:00:00" "INFO" "hello" 501
  omega

/-- C4: over every sequence of appends and clears starting from the
fresh store, the issued `sequenceId`s are pairwise strictly increasing
in insertion order (hence never reused — ids issued after any `clear`
in the sequence exceed every id issued before it), a `clear` empties the
visible buffer, and a `clear` leaves the sequence counter untouched. -/
theorem sequenceIds_strictly_increasing_across_clears (ops : List LogOp) :
    (issuedIds initLogStore ops).Pairwise (· < ·)
    ∧ (issuedIds initLogStore ops).Nodup
    ∧ (runLogOps initLogStore (ops ++ [LogOp.clear])).globalLogs = []
    ∧ (runLogOps initLogStore (ops ++ [LogOp.clear])).logIdCounter
        = (runLogOps initLogStore ops).logIdCounter := by
  refine ⟨issuedIds_pairwise ops initLogStore, ?_, ?_, ?_⟩
  · exact (issuedIds_pairwise ops initLogStore).imp (fun h => Nat.ne_of_lt h)
  · rw [runLogOps_append_op]; rfl
  · rw [runLogOps_append_op]; rfl

/-- C5 counterexample: with a buffer holding one INFO and one ERROR
entry and the ERROR filter selected, the export (`downloadLogs`) is not
the newline-joined filtered view — the code serializes `logs`, not
`filteredLogs`. -/
theorem downloadLogs_ignores_filter_counterexample :
    downloadText
        { logs := [{ id := 0, timestamp := "10:00:00", level := "INFO", message := "alpha" },
                   { id := 1, timestamp := "10:00:01", level := "ERROR", message := "beta" }],
          filter := "ERROR", autoScroll := true, isMinimized := false }
      ≠ String.intercalate "\n"
          ((filteredView
              { logs := [{ id := 0, timestamp := "10:00:00", level := "INFO", message := "alpha" },
                         { id := 1, timestamp := "10:00:01", level := "ERROR", message := "beta" }],
                filter := "ERROR", autoScroll := true, isMinimized := false }).map
            formatLogLine) := by
  decide

/-- C5 amended: the export serializes the entire current snapshot (every
buffered entry, in buffer order) as newline-joined
`[timestamp] [level] message` records, independent of the selected level
filter, and — being a pure function of the snapshot — modifies nothing. -/
theorem downloadLogs_serializes_full_snapshot
    (logs : List LogEntry) (f g : String) (a b mi mj : Bool) :
    downloadText { logs := logs, filter := f, autoScroll := a, isMinimized := mi }
        = String.intercalate "\n" (logs.map formatLogLine)
    ∧ downloadText { logs := logs, filter := f, autoScroll := a, isMinimized := mi }
        = downloadText { logs := logs, filter := g, autoScroll := b, isMinimized := mj } :=
  ⟨rfl, rfl⟩

/-- C6: when the backend query issued by `reconcile()` fails (the
promise rejects), the `ConnectionState` after the step equals the state
before it — the `catch` block only logs. -/
theorem reconcile_failure_retains_state (prev : ConnectionState) (e : String) :
    checkActiveConnection prev (Except.error e) = prev := rfl

/-- C7 (failing-input evaluation): the 2000 ms interval callback starts
a poll unconditionally — there is no in-flight guard in App.tsx — so two
timer firings with no intervening resolution leave two concurrent
`get_lobby_id` polls in flight. -/
theorem reconcile_timer_overlapping_polls :
    (timerTick (timerTick { inFlight := 0, conn := emptyConnectionState })).inFlight
      = 2 := rfl

/-- C8: the byte formatter follows the specification's unit thresholds
(`B` below 1024, `KB` on [1024, 1024²), `MB` from 1024² up, two decimal
places) and produces the three required example strings. -/
theorem formatBytes_thresholds_and_examples :
    (∀ b : Nat, formatBytes b = formatBytesSpec b)
    ∧ formatBytes 500 = "500 B"
    ∧ formatBytes 2048 = "2.00 KB"
    ∧ formatBytes 5242880 = "5.00 MB" := by
  refine ⟨?_, by rfl, by rfl, by rfl⟩
  intro b
  by_cases h1 : b < 1024
  · simp [formatBytes, formatBytesSpec, h1]
  · by_cases h2 : b < 1024 * 1024
    · have h1' : 1024 ≤ b := Nat.le_of_not_lt h1
      simp [formatBytes, formatBytesSpec, h1, h2, h1']
    · simp [formatBytes, formatBytesSpec, h1, h2]

/-- C9: a successful detection probe stores the server and clears the
detection interval; every later run of the detection effect while the
detected server remains set creates no new interval and issues no probe
(the attempt counter is untouched); and a cleared interval's timer never
fires a probe. -/
theorem detection_stops_after_success
    (s : HostState) (server : ServerInfo)
    (resp : Except String (Option ServerInfo)) :
    ((performDetection s (Except.ok (some server))).intervalActive = false
      ∧ (performDetection s (Except.ok (some server))).detectedServer = some server)
    ∧ (s.detectedServer.isSome = true →
        effectRun s resp = { s with intervalActive := false })
    ∧ (s.intervalActive = false → timerFire s resp = s) := by
  refine ⟨⟨rfl, rfl⟩, ?_, ?_⟩
  · intro h
    simp [effectRun, h]
  · intro h
    simp [timerFire, h]

/-- Witness for C9 at a concrete state whose server is already detected
and whose interval has been cleared. -/
theorem detection_stops_after_success_witness :
    ((⟨"25565", HostStatus.idle, "m", false, some ⟨25565, "mc"⟩, 3, false⟩ :
        HostState).detectedServer.isSome = true)
    ∧ effectRun
        (⟨"25565", HostStatus.idle, "m", false, some ⟨25565, "mc"⟩, 3, false⟩ :
          HostState) (Except.ok none)
        = { (⟨"25565", HostStatus.idle, "m", false, some ⟨25565, "mc"⟩, 3, false⟩ :
              HostState) with intervalActive := false }
    ∧ ((⟨"25565", HostStatus.idle, "m", false, some ⟨25565, "mc"⟩, 3, false⟩ :
        HostState).intervalActive = false)
    ∧ timerFire
        (⟨"25565", HostStatus.idle, "m", false, some ⟨25565, "mc"⟩, 3, false⟩ :
          HostState) (Except.ok none)
        = (⟨"25565", HostStatus.idle, "m", false, some ⟨25565, "mc"⟩, 3, false⟩ :
            HostState) :=
  ⟨rfl,
   (detection_stops_after_success
      (⟨"25565", HostStatus.idle, "m", false, some ⟨25565, "mc"⟩, 3, false⟩ :
        HostState) ⟨25565, "mc"⟩ (Except.ok none)).2.1 rfl,
   rfl,
   (detection_stops_after_success
      (⟨"25565", HostStatus.idle, "m", false, some ⟨25565, "mc"⟩, 3, false⟩ :
        HostState) ⟨25565, "mc"⟩ (Except.ok none)).2.2 rfl⟩

/-- C10: a `get_lobby_id` response of the integer 0 is falsy under the
code's `if (lobbyId)` test, so `reconcile()` clears all three
`ConnectionState` fields, exactly as for `null`, rather than merging
"0" as an active lobby id. -/
theorem reconcile_zero_lobby_clears_state (prev : ConnectionState) :
    checkActiveConnection prev (Except.ok (some 0)) = emptyConnectionState := by
  simp [checkActiveConnection, emptyConnectionState]

end MCConnect
